import Mathlib

/-!
Shallow embedding of `src/esp32/strava/strava.ino` (StravaDisplay).

The sketch's logic is embedded as pure Lean functions:
* machine integers (`unsigned long`, `int`, `time_t`) become `Nat`/`Int`,
  with an explicit `% 2^32` where 32-bit wraparound matters (the
  `millis() - lastFetchTime` comparison in `loop`);
* the C++ `float` distance accumulator is modelled by exact rationals `ℚ`
  (no claim depends on rounding of float addition);
* the JSON collaborator is modelled by its outcome: `Option (List Activity)`
  (`none` = `DeserializationError`, `some l` = the parsed array);
* the HTTP collaborator is modelled by the status code it returns and the
  parse outcome of the body;
* TFT drawing calls become a list of display commands.
-/

/-- WeeklyStats struct (strava.ino lines 20-25).  `totalDistance` is a C++
`float` (meters), modelled exactly by `ℚ`; `totalTime` an `unsigned long`
(seconds); `runCount` an `int`; `valid` a `bool`. -/
structure WeeklyStats where
  totalDistance : ℚ
  totalTime : ℕ
  runCount : ℤ
  valid : Bool
deriving Repr, DecidableEq

/-- One entry of the parsed activities array, as read by `parseActivities`
(lines 163-169): `activity["type"]`, `activity["distance"]`,
`activity["moving_time"]`. -/
structure Activity where
  type : String
  distance : ℚ
  moving_time : ℕ
deriving Repr, DecidableEq

/-- Loop body of `parseActivities` (lines 163-170): for one activity, if
`type == "Run"` add its distance and moving time and increment the run
count, otherwise leave the accumulator unchanged. -/
def aggregateStep (s : WeeklyStats) (a : Activity) : WeeklyStats :=
  if a.type = "Run" then
    { s with
      totalDistance := s.totalDistance + a.distance
      totalTime := s.totalTime + a.moving_time
      runCount := s.runCount + 1 }
  else s

/-- parseActivities (lines 144-178), acting on the shared `currentStats`
(`prev`).  The JSON collaborator's outcome is `parsed`: on `none`
(deserialization error) only `valid` is set to `false` and the function
returns (lines 149-154); on `some acts` the numeric fields are reset to
zero (lines 156-159), the activities are folded with `aggregateStep`
(lines 162-170), and `valid` is set to `true` (line 172). -/
def parseActivities (parsed : Option (List Activity)) (prev : WeeklyStats) :
    WeeklyStats :=
  match parsed with
  | none => { prev with valid := false }
  | some acts =>
    let reset : WeeklyStats :=
      { prev with totalDistance := 0, totalTime := 0, runCount := 0 }
    let summed := acts.foldl aggregateStep reset
    { summed with valid := true }

/-- Process-wide mutable state touched by a fetch cycle: the shared
`currentStats` (line 27) and `lastFetchTime` (line 28). -/
structure FetchState where
  currentStats : WeeklyStats
  lastFetchTime : ℕ
deriving Repr, DecidableEq

/-- fetchWeeklyStats (lines 104-142), from the HTTP exchange on.  `httpCode`
is the result of `http.GET()` (line 125; an `int`, negative on transport
failure); `parsed` the JSON outcome of the body; `ms` the `millis()` reading
taken at line 132.  On `httpCode == 200` the body is handed to
`parseActivities` and then `lastFetchTime = millis()` (lines 128-132); on
any other code only `currentStats.valid = false` (lines 133-139). -/
def fetchWeeklyStats (httpCode : ℤ) (parsed : Option (List Activity))
    (ms : ℕ) (st : FetchState) : FetchState :=
  if httpCode = 200 then
    { currentStats := parseActivities parsed st.currentStats
      lastFetchTime := ms }
  else
    { st with currentStats := { st.currentStats with valid := false } }

/-- Distance (meters) of the qualifying ("Run") records of a list, summed. -/
def runDistanceSum (l : List Activity) : ℚ :=
  ((l.filter fun a => a.type = "Run").map Activity.distance).sum

/-- Moving time (seconds) of the qualifying records of a list, summed. -/
def runTimeSum (l : List Activity) : ℕ :=
  ((l.filter fun a => a.type = "Run").map Activity.moving_time).sum

/-- Number of qualifying records of a list. -/
def runCountOf (l : List Activity) : ℕ :=
  (l.filter fun a => a.type = "Run").length

/-- REFRESH_INTERVAL constant (line 13): 15 minutes in milliseconds. -/
def REFRESH_INTERVAL : ℕ := 900000

/-- Modulus of the 32-bit `unsigned long` arithmetic of `millis()`. -/
def U32 : ℕ := 4294967296

/-- Guard of the refresh check in `loop` (lines 86-87):
`WiFi.status() == WL_CONNECTED && millis() - lastFetchTime >= REFRESH_INTERVAL`.
The subtraction is 32-bit unsigned, so it is embedded as
`(ms % 2^32 + 2^32 - lastFetch % 2^32) % 2^32`, which equals the C value for
all operands. -/
def shouldFetch (connected : Bool) (ms lastFetch : ℕ) : Bool :=
  connected &&
    decide (REFRESH_INTERVAL ≤ (ms % U32 + U32 - lastFetch % U32) % U32)

/-- Millis reading at the k-th poll tick of `loop`, under the simulated
clock: `delay(1000)` at line 93 spaces ticks 1000 ms apart starting at
`t0`. -/
def tickMs (t0 k : ℕ) : ℕ := t0 + 1000 * k

/-- Value of `lastFetchTime` after the first `k` poll ticks of `loop`,
simulated with the device connected and every triggered fetch succeeding
instantaneously (so `fetchWeeklyStats` sets `lastFetchTime = millis()`,
line 132).  The run starts just after a fetch completed at `t0`
(`lastFetchTime = t0`), as after the initial fetch in `setup` (line 76). -/
def lfAt (t0 : ℕ) : ℕ → ℕ
  | 0 => t0
  | k + 1 =>
    if shouldFetch true (tickMs t0 (k + 1)) (lfAt t0 k) then tickMs t0 (k + 1)
    else lfAt t0 k

/-- Whether the k-th poll tick of the simulated run triggers a fetch. -/
def fireAt (t0 : ℕ) : ℕ → Bool
  | 0 => shouldFetch true (tickMs t0 0) t0
  | k + 1 => shouldFetch true (tickMs t0 (k + 1)) (lfAt t0 k)

/-- daysSinceMonday (line 114): `(timeinfo.tm_wday + 6) % 7`, with
`tm_wday` 0=Sunday..6=Saturday. -/
def daysSinceMonday (wday : ℕ) : ℕ := (wday + 6) % 7

/-- weekStart computation of `fetchWeeklyStats` (lines 112-115):
`now - (daysSinceMonday * 24 * 3600) - (tm_hour * 3600) - (tm_min * 60)
- tm_sec`.  `now` is a `time_t` (signed), the calendar fields are the
nonnegative `tm` fields. -/
def startOfCurrentWeek (now : ℤ) (wday hour minute sec : ℕ) : ℤ :=
  now - (daysSinceMonday wday : ℤ) * 24 * 3600 - (hour : ℤ) * 3600 -
    (minute : ℤ) * 60 - (sec : ℤ)

/-- Calendar fields consistent with the timestamp: what `localtime_r`
(line 110) yields for a nonnegative `now` under the zero UTC offset
configured at line 60.  Day 0 of the Unix epoch was a Thursday, hence the
`+ 4` in the weekday (0=Sunday) decomposition. -/
def consistentClockFields (now : ℤ) (wday hour minute sec : ℕ) : Prop :=
  0 ≤ now ∧ (wday : ℤ) = (now / 86400 + 4) % 7 ∧
    (hour : ℤ) = now % 86400 / 3600 ∧ (minute : ℤ) = now % 3600 / 60 ∧
    (sec : ℤ) = now % 60

/-- Two timestamps lie in the same Monday-to-Sunday window: their
Monday-based week indices (days since epoch shifted so that weeks start on
Monday, divided by 7) agree. -/
def sameMondayWeek (t1 t2 : ℤ) : Prop :=
  (t1 / 86400 + 3) / 7 = (t2 / 86400 + 3) / 7

/-- Text anchor values used by the sketch (`MC_DATUM`, `TC_DATUM`,
`BC_DATUM`). -/
inductive TextDatum
  | MC
  | TC
  | BC
deriving Repr, DecidableEq

/-- Colors used by the sketch. -/
inductive TFTColor
  | BLACK
  | RED
  | ORANGE
  | CYAN
  | GREEN
  | YELLOW
  | DARKGREY
  | WHITE
deriving Repr, DecidableEq

/-- One call to the display collaborator, mirroring the `tft` calls made by
`displayWeeklyStats`. -/
inductive DisplayCmd
  | fillScreen (c : TFTColor)
  | setTextColor (c : TFTColor)
  | setTextSize (n : ℕ)
  | setTextDatum (d : TextDatum)
  | drawString (s : String) (x y : ℕ)
deriving Repr, DecidableEq

/-- One-decimal-place formatting, as Arduino `String(float, 1)` does for
the nonnegative distances arising here (round to nearest at the first
decimal). -/
def fmtFixed1 (q : ℚ) : String :=
  let t : ℤ := ⌊q * 10 + 1 / 2⌋
  toString (t / 10) ++ "." ++ toString (t % 10)

/-- displayWeeklyStats (lines 180-224) as the list of display calls it
makes, in order.  `stats` is the shared `currentStats`; `ms` the `millis()`
reading at line 223.  Invalid stats take the early-return error branch
(lines 183-190); valid stats draw title, distance, time, run count and the
"Updated: Nm ago" footer, whose number is `millis() / 60000` (line 223). -/
def displayWeeklyStats (stats : WeeklyStats) (ms : ℕ) : List DisplayCmd :=
  DisplayCmd.fillScreen TFTColor.BLACK ::
    (if !stats.valid then
      [DisplayCmd.setTextColor TFTColor.RED, DisplayCmd.setTextSize 2,
        DisplayCmd.setTextDatum TextDatum.MC,
        DisplayCmd.drawString "Error loading" 120 100,
        DisplayCmd.drawString "data" 120 130]
    else
      [DisplayCmd.setTextColor TFTColor.ORANGE, DisplayCmd.setTextSize 2,
        DisplayCmd.setTextDatum TextDatum.TC,
        DisplayCmd.drawString "THIS WEEK" 120 30,
        DisplayCmd.setTextColor TFTColor.CYAN, DisplayCmd.setTextSize 3,
        DisplayCmd.setTextDatum TextDatum.MC,
        DisplayCmd.drawString (fmtFixed1 (stats.totalDistance / 1000) ++ " km")
          120 90,
        DisplayCmd.setTextColor TFTColor.GREEN, DisplayCmd.setTextSize 2,
        DisplayCmd.drawString
          (toString (stats.totalTime / 3600) ++ "h " ++
            toString (stats.totalTime % 3600 / 60) ++ "m") 120 130,
        DisplayCmd.setTextColor TFTColor.YELLOW, DisplayCmd.setTextSize 2,
        DisplayCmd.drawString (toString stats.runCount ++ " runs") 120 160,
        DisplayCmd.setTextColor TFTColor.DARKGREY, DisplayCmd.setTextSize 1,
        DisplayCmd.setTextDatum TextDatum.BC,
        DisplayCmd.drawString
          ("Updated: " ++ toString (ms / 60000) ++ "m ago") 120 220])

theorem foldl_aggregateStep (l : List Activity) (s : WeeklyStats) :
    l.foldl aggregateStep s =
      { s with
        totalDistance := s.totalDistance + runDistanceSum l
        totalTime := s.totalTime + runTimeSum l
        runCount := s.runCount + runCountOf l } := by
  induction l generalizing s with
  | nil => simp [runDistanceSum, runTimeSum, runCountOf]
  | cons a l ih =>
    simp only [List.foldl_cons, ih, aggregateStep, runDistanceSum,
      runTimeSum, runCountOf, List.filter_cons]
    by_cases h : a.type = "Run" <;>
      simp [h, add_assoc, add_comm, add_left_comm]

theorem elapsed32_eq (ms lf : ℕ) (h1 : lf ≤ ms) (h2 : ms < U32) :
    (ms % U32 + U32 - lf % U32) % U32 = ms - lf := by
  simp only [U32] at h2 ⊢
  omega

theorem shouldFetch_eq_false_of_lt (c : Bool) (ms lf : ℕ) (h1 : lf ≤ ms)
    (h2 : ms < U32) (h3 : ms - lf < REFRESH_INTERVAL) :
    shouldFetch c ms lf = false := by
  have hfalse : ¬ REFRESH_INTERVAL ≤ (ms % U32 + U32 - lf % U32) % U32 := by
    rw [elapsed32_eq ms lf h1 h2]
    omega
  simp [shouldFetch, hfalse]

theorem shouldFetch_tick (t0 n k : ℕ) (hn : t0 + 1000 * n < U32)
    (hk : k + 1 ≤ n) :
    shouldFetch true (tickMs t0 (k + 1)) (t0 + 900000 * (k / 900)) =
      decide ((k + 1) % 900 = 0) := by
  have hle : t0 + 900000 * (k / 900) ≤ tickMs t0 (k + 1) := by
    simp only [tickMs]
    omega
  have hlt : tickMs t0 (k + 1) < U32 := by
    simp only [tickMs, U32] at hn ⊢
    omega
  simp only [shouldFetch, Bool.true_and]
  rw [elapsed32_eq _ _ hle hlt, decide_eq_decide]
  simp only [tickMs, REFRESH_INTERVAL]
  omega

theorem lfAt_closed (t0 n : ℕ) (hn : t0 + 1000 * n < U32) :
    ∀ k, k ≤ n → lfAt t0 k = t0 + 900000 * (k / 900) := by
  intro k
  induction k with
  | zero => intro _; simp [lfAt]
  | succ k ih =>
    intro hk
    have ih2 := ih (Nat.le_of_succ_le hk)
    have hg := shouldFetch_tick t0 n k hn hk
    simp only [lfAt, ih2, hg]
    by_cases h9 : (k + 1) % 900 = 0
    · rw [if_pos (by simpa using h9)]
      simp only [tickMs]
      omega
    · rw [if_neg (by simpa using h9)]
      omega

theorem fireAt_closed (t0 n : ℕ) (hn : t0 + 1000 * n < U32) :
    ∀ k, k ≤ n → fireAt t0 k = decide (0 < k ∧ k % 900 = 0) := by
  intro k hk
  cases k with
  | zero =>
    have h0 : tickMs t0 0 = t0 := by simp [tickMs]
    have hf := shouldFetch_eq_false_of_lt true t0 t0 le_rfl
      (by simp only [U32] at hn ⊢; omega) (by simp [REFRESH_INTERVAL])
    simp [fireAt, h0, hf]
  | succ k =>
    have hlf := lfAt_closed t0 n hn k (Nat.le_of_succ_le hk)
    have hg := shouldFetch_tick t0 n k hn hk
    simp only [fireAt, hlf, hg]
    rw [decide_eq_decide]
    omega

theorem startOfCurrentWeek_closed (now : ℤ) (wday hour minute sec : ℕ)
    (h : consistentClockFields now wday hour minute sec) :
    startOfCurrentWeek now wday hour minute sec =
      86400 * (7 * ((now / 86400 + 3) / 7) - 3) := by
  obtain ⟨h0, hw, hh, hm, hs⟩ := h
  simp only [startOfCurrentWeek, daysSinceMonday]
  omega

/-- C4: for every fetch cycle whose HTTP response has a non-200 status
code, the resulting shared WeeklyStats has valid=false and lastFetchTime is
left unchanged. -/
theorem non200_invalidates_and_keeps_lastFetchTime (httpCode : ℤ)
    (parsed : Option (List Activity)) (ms : ℕ) (st : FetchState)
    (h : httpCode ≠ 200) :
    (fetchWeeklyStats httpCode parsed ms st).currentStats.valid = false ∧
      (fetchWeeklyStats httpCode parsed ms st).lastFetchTime =
        st.lastFetchTime := by
  simp [fetchWeeklyStats, h]

/-- Witness for C4 at the concrete status code 404. -/
theorem non200_invalidates_and_keeps_lastFetchTime_witness :
    (fetchWeeklyStats 404 none 5 ⟨⟨5, 7, 3, true⟩, 2⟩).currentStats.valid
        = false ∧
      (fetchWeeklyStats 404 none 5 ⟨⟨5, 7, 3, true⟩, 2⟩).lastFetchTime = 2 :=
  non200_invalidates_and_keeps_lastFetchTime 404 none 5 ⟨⟨5, 7, 3, true⟩, 2⟩
    (by decide)

/-- C5: aggregation starts from a zeroed accumulator, adds distance and
moving time and increments the run count exactly for records whose type is
the literal "Run", ignores any other type, yields valid=true
unconditionally, and maps the empty sequence to {0, 0, 0, valid=true}. -/
theorem aggregate_spec (prev : WeeklyStats) (l : List Activity) :
    (parseActivities (some l) prev).totalDistance = runDistanceSum l ∧
      (parseActivities (some l) prev).totalTime = runTimeSum l ∧
      (parseActivities (some l) prev).runCount = (runCountOf l : ℤ) ∧
      (parseActivities (some l) prev).valid = true ∧
      parseActivities (some []) prev =
        { totalDistance := 0, totalTime := 0, runCount := 0,
          valid := true } ∧
      (∀ (s : WeeklyStats) (a : Activity), a.type = "Run" →
        aggregateStep s a =
          { s with
            totalDistance := s.totalDistance + a.distance
            totalTime := s.totalTime + a.moving_time
            runCount := s.runCount + 1 }) ∧
      (∀ (s : WeeklyStats) (a : Activity), a.type ≠ "Run" →
        aggregateStep s a = s) := by
  refine ⟨?_, ?_, ?_, ?_, ?_, ?_, ?_⟩
  · simp [parseActivities, foldl_aggregateStep]
  · simp [parseActivities, foldl_aggregateStep]
  · simp [parseActivities, foldl_aggregateStep]
  · simp [parseActivities]
  · simp [parseActivities, foldl_aggregateStep, runDistanceSum, runTimeSum,
      runCountOf]
  · intro s a ha
    simp [aggregateStep, ha]
  · intro s a ha
    simp [aggregateStep, ha]

/-- Witness for C5: a "Run" record is added, a "Ride" record is ignored. -/
theorem aggregate_spec_witness :
    aggregateStep ⟨0, 0, 0, true⟩ ⟨"Run", 5000, 1500⟩ =
        ⟨0 + 5000, 0 + 1500, 0 + 1, true⟩ ∧
      aggregateStep ⟨3, 4, 5, true⟩ ⟨"Ride", 20000, 3000⟩ = ⟨3, 4, 5, true⟩ :=
  ⟨(aggregate_spec ⟨0, 0, 0, true⟩ []).2.2.2.2.2.1 ⟨0, 0, 0, true⟩
      ⟨"Run", 5000, 1500⟩ rfl,
    (aggregate_spec ⟨3, 4, 5, true⟩ []).2.2.2.2.2.2 ⟨3, 4, 5, true⟩
      ⟨"Ride", 20000, 3000⟩ (by decide)⟩

/-- C9: when JSON deserialization of a 200-response body fails, only the
valid flag of the shared WeeklyStats is set to false; totalDistance,
totalTime and runCount keep the previous cycle's values. -/
theorem parse_failure_preserves_numeric_fields (ms : ℕ) (st : FetchState) :
    (fetchWeeklyStats 200 none ms st).currentStats =
        { st.currentStats with valid := false } ∧
      (fetchWeeklyStats 200 none ms st).currentStats.totalDistance =
        st.currentStats.totalDistance ∧
      (fetchWeeklyStats 200 none ms st).currentStats.totalTime =
        st.currentStats.totalTime ∧
      (fetchWeeklyStats 200 none ms st).currentStats.runCount =
        st.currentStats.runCount ∧
      (fetchWeeklyStats 200 none ms st).currentStats.valid = false := by
  simp [fetchWeeklyStats, parseActivities]

/-- C10: after every 200 response, lastFetchTime is set to the current
millis reading even when JSON parsing of the body fails, so a malformed
payload still delays the next fetch attempt by the full refresh
interval. -/
theorem status200_updates_lastFetchTime (parsed : Option (List Activity))
    (ms : ℕ) (st : FetchState) :
    (fetchWeeklyStats 200 parsed ms st).lastFetchTime = ms ∧
      (fetchWeeklyStats 200 none ms st).currentStats.valid = false ∧
      ∀ (c : Bool) (t : ℕ), ms ≤ t → t < U32 → t - ms < REFRESH_INTERVAL →
        shouldFetch c t (fetchWeeklyStats 200 none ms st).lastFetchTime =
          false := by
  refine ⟨by simp [fetchWeeklyStats], by simp [fetchWeeklyStats,
    parseActivities], ?_⟩
  intro c t h1 h2 h3
  have hlf : (fetchWeeklyStats 200 none ms st).lastFetchTime = ms := by
    simp [fetchWeeklyStats]
  rw [hlf]
  exact shouldFetch_eq_false_of_lt c t ms h1 h2 h3

/-- Witness for C10: a malformed payload after a 200 at millis 1000 still
records lastFetchTime = 1000, and the scheduler guard stays false at
millis 2000. -/
theorem status200_updates_lastFetchTime_witness :
    (fetchWeeklyStats 200 none 1000 ⟨⟨0, 0, 0, true⟩, 0⟩).lastFetchTime =
        1000 ∧
      shouldFetch true 2000
          (fetchWeeklyStats 200 none 1000 ⟨⟨0, 0, 0, true⟩, 0⟩).lastFetchTime
        = false :=
  ⟨(status200_updates_lastFetchTime none 1000 ⟨⟨0, 0, 0, true⟩, 0⟩).1,
    (status200_updates_lastFetchTime none 1000 ⟨⟨0, 0, 0, true⟩, 0⟩).2.2 true
      2000 (by decide) (by decide) (by decide)⟩

/-- C1: the scheduler never triggers a fetch before REFRESH_INTERVAL
(900000 ms) has elapsed since lastFetchTime, triggers only while the
connectivity collaborator reports connected, and — on the simulated
1000 ms polling cadence with instantaneous successful fetches — triggers
exactly once per elapsed interval: tick k fires iff k is a positive
multiple of 900 (i.e. exactly every 900000 ms), so no double-fire and no
skip. -/
theorem scheduler_fires_once_per_interval (t0 n : ℕ)
    (hn : t0 + 1000 * n < U32) :
    (∀ (c : Bool) (ms lf : ℕ), lf ≤ ms → ms < U32 →
        ms - lf < REFRESH_INTERVAL → shouldFetch c ms lf = false) ∧
      (∀ ms lf : ℕ, shouldFetch false ms lf = false) ∧
      (∀ k, k ≤ n → fireAt t0 k = decide (0 < k ∧ k % 900 = 0)) := by
  refine ⟨shouldFetch_eq_false_of_lt, ?_, fireAt_closed t0 n hn⟩
  intro ms lf
  simp [shouldFetch]

/-- Witness for C1: on a 1800-tick simulated run starting at millis 0,
ticks 899 and 901 do not fire while ticks 900 and 1800 do. -/
theorem scheduler_fires_once_per_interval_witness :
    fireAt 0 899 = false ∧ fireAt 0 900 = true ∧ fireAt 0 901 = false ∧
      fireAt 0 1800 = true := by
  have h := scheduler_fires_once_per_interval 0 1800 (by decide)
  refine ⟨?_, ?_, ?_, ?_⟩
  · rw [h.2.2 899 (by decide)]
    decide
  · rw [h.2.2 900 (by decide)]
    decide
  · rw [h.2.2 901 (by decide)]
    decide
  · rw [h.2.2 1800 (by decide)]
    decide

/-- C6: for calendar fields consistent with the timestamp,
startOfCurrentWeek returns now minus ((weekday + 6) mod 7) days, the hour,
the minute and the second — and that value is the most recent Monday at
00:00:00 in the same time reference: it is a midnight (multiple of 86400),
its weekday is Monday, and it lies at most one week back, no later than
now. -/
theorem startOfCurrentWeek_is_monday_midnight (now : ℤ)
    (wday hour minute sec : ℕ)
    (h : consistentClockFields now wday hour minute sec) :
    startOfCurrentWeek now wday hour minute sec =
        now - (((wday + 6) % 7 : ℕ) : ℤ) * (24 * 3600) - (hour : ℤ) * 3600 -
          (minute : ℤ) * 60 - (sec : ℤ) ∧
      startOfCurrentWeek now wday hour minute sec % 86400 = 0 ∧
      (startOfCurrentWeek now wday hour minute sec / 86400 + 4) % 7 = 1 ∧
      now - 7 * 86400 < startOfCurrentWeek now wday hour minute sec ∧
      startOfCurrentWeek now wday hour minute sec ≤ now := by
  have hc := startOfCurrentWeek_closed now wday hour minute sec h
  obtain ⟨h0, hw, hh, hm, hs⟩ := h
  refine ⟨?_, ?_, ?_, ?_, ?_⟩
  · simp only [startOfCurrentWeek, daysSinceMonday]
    ring
  · rw [hc]
    omega
  · rw [hc]
    omega
  · simp only [startOfCurrentWeek, daysSinceMonday] at *
    omega
  · simp only [startOfCurrentWeek, daysSinceMonday] at *
    omega

/-- Witness for C6 at Tuesday 1970-01-06 01:01:01 UTC (timestamp 435661):
the computed week start is Monday 1970-01-05 00:00:00 (timestamp 345600). -/
theorem startOfCurrentWeek_is_monday_midnight_witness :
    startOfCurrentWeek 435661 2 1 1 1 % 86400 = 0 ∧
      (startOfCurrentWeek 435661 2 1 1 1 / 86400 + 4) % 7 = 1 ∧
      startOfCurrentWeek 435661 2 1 1 1 = 345600 := by
  have hcf : consistentClockFields 435661 2 1 1 1 := by
    simp only [consistentClockFields]
    decide
  have h := startOfCurrentWeek_is_monday_midnight 435661 2 1 1 1 hcf
  exact ⟨h.2.1, h.2.2.1, by decide⟩

/-- C7: startOfCurrentWeek is constant within a Monday-to-Sunday window
(for consistent calendar fields), and is the identity at the week boundary
(weekday=Monday, hour=minute=second=0). -/
theorem startOfCurrentWeek_constant_within_week (t1 t2 : ℤ)
    (w1 h1 m1 s1 w2 h2 m2 s2 : ℕ)
    (hc1 : consistentClockFields t1 w1 h1 m1 s1)
    (hc2 : consistentClockFields t2 w2 h2 m2 s2)
    (hw : sameMondayWeek t1 t2) :
    startOfCurrentWeek t1 w1 h1 m1 s1 = startOfCurrentWeek t2 w2 h2 m2 s2 ∧
      ∀ now : ℤ, startOfCurrentWeek now 1 0 0 0 = now := by
  constructor
  · rw [startOfCurrentWeek_closed t1 w1 h1 m1 s1 hc1,
      startOfCurrentWeek_closed t2 w2 h2 m2 s2 hc2]
    simp only [sameMondayWeek] at hw
    rw [hw]
  · intro now
    simp [startOfCurrentWeek, daysSinceMonday]

/-- Witness for C7: Monday 00:00:00 (345600) and the following Tuesday
01:01:01 (435661) lie in the same week and get the same week start, and
the Monday maps to itself. -/
theorem startOfCurrentWeek_constant_within_week_witness :
    startOfCurrentWeek 345600 1 0 0 0 = startOfCurrentWeek 435661 2 1 1 1 ∧
      startOfCurrentWeek 345600 1 0 0 0 = 345600 := by
  have hc1 : consistentClockFields 345600 1 0 0 0 := by
    simp only [consistentClockFields]
    decide
  have hc2 : consistentClockFields 435661 2 1 1 1 := by
    simp only [consistentClockFields]
    decide
  have hw : sameMondayWeek 345600 435661 := by
    simp only [sameMondayWeek]
    decide
  have h := startOfCurrentWeek_constant_within_week 345600 435661 1 0 0 0
    2 1 1 1 hc1 hc2 hw
  exact ⟨h.1, h.2 345600⟩

/-- C8: rendering with valid=false emits exactly the clear plus the
centered two-line error message, and the emitted command list is identical
for any two invalid stats values regardless of their numeric fields (and
of the millis reading). -/
theorem render_invalid_ignores_numeric_fields (s1 s2 : WeeklyStats)
    (ms1 ms2 : ℕ) (hv1 : s1.valid = false) (hv2 : s2.valid = false) :
    displayWeeklyStats s1 ms1 = displayWeeklyStats s2 ms2 ∧
      displayWeeklyStats s1 ms1 =
        [DisplayCmd.fillScreen TFTColor.BLACK,
          DisplayCmd.setTextColor TFTColor.RED, DisplayCmd.setTextSize 2,
          DisplayCmd.setTextDatum TextDatum.MC,
          DisplayCmd.drawString "Error loading" 120 100,
          DisplayCmd.drawString "data" 120 130] := by
  simp [displayWeeklyStats, hv1, hv2]

/-- Witness for C8 at two invalid stats with different numeric fields. -/
theorem render_invalid_ignores_numeric_fields_witness :
    displayWeeklyStats ⟨5, 7, 3, false⟩ 1000 =
      displayWeeklyStats ⟨9999, 1, 42, false⟩ 77777 :=
  (render_invalid_ignores_numeric_fields ⟨5, 7, 3, false⟩
    ⟨9999, 1, 42, false⟩ 1000 77777 rfl rfl).1

/-- C2 (code bug): at millis 120000 with the last successful fetch at
millis 60000, the footer drawn by displayWeeklyStats reads
"Updated: 2m ago" — it divides the raw millis reading (uptime) by 60000
(line 223) — whereas the elapsed time since the last fetch,
integer-divided into minutes as the claim states, is 1 minute. -/
theorem footer_shows_uptime_not_elapsed :
    (displayWeeklyStats ⟨0, 0, 0, true⟩ 120000).getLast? =
        some (DisplayCmd.drawString "Updated: 2m ago" 120 220) ∧
      (120000 - 60000) / 60000 = 1 ∧ (2 : ℕ) ≠ 1 := by
  refine ⟨rfl, by decide, by decide⟩

/-- C3 counterexample: a fetch cycle that fails with status 404 leaves the
previous numeric fields {5, 7, 3} in place — the shared stats are not
reset to zero at the start of the cycle. -/
theorem stats_not_reset_at_cycle_start_cex :
    (fetchWeeklyStats 404 none 1000 ⟨⟨5, 7, 3, true⟩, 0⟩).currentStats ≠
        { totalDistance := 0, totalTime := 0, runCount := 0,
          valid := false } ∧
      (fetchWeeklyStats 404 none 1000 ⟨⟨5, 7, 3, true⟩, 0⟩).currentStats =
        { totalDistance := 5, totalTime := 7, runCount := 3,
          valid := false } := by
  constructor
  · decide
  · decide

/-- C3 amended: the numeric fields are reset to zero only after JSON
deserialization of a 200 response succeeds, and are then populated by
aggregation; on a non-200 status or a parse failure only the valid flag is
set to false and the numeric fields keep their previous values. -/
theorem stats_reset_only_after_parse_success (httpCode : ℤ)
    (parsed : Option (List Activity)) (ms : ℕ) (st : FetchState) :
    (∀ acts, httpCode = 200 → parsed = some acts →
        (fetchWeeklyStats httpCode parsed ms st).currentStats =
          { totalDistance := runDistanceSum acts,
            totalTime := runTimeSum acts,
            runCount := (runCountOf acts : ℤ), valid := true }) ∧
      (httpCode = 200 → parsed = none →
        (fetchWeeklyStats httpCode parsed ms st).currentStats =
          { st.currentStats with valid := false }) ∧
      (httpCode ≠ 200 →
        (fetchWeeklyStats httpCode parsed ms st).currentStats =
          { st.currentStats with valid := false }) := by
  refine ⟨?_, ?_, ?_⟩
  · rintro acts rfl rfl
    simp [fetchWeeklyStats, parseActivities, foldl_aggregateStep]
  · rintro rfl rfl
    simp [fetchWeeklyStats, parseActivities]
  · intro h
    simp [fetchWeeklyStats, h]

/-- Witness for the amended C3: a successful cycle rebuilds the stats from
zero out of the parsed records, a failed cycle preserves {999, 888, 77}. -/
theorem stats_reset_only_after_parse_success_witness :
    (fetchWeeklyStats 200
          (some [⟨"Run", 5000, 1500⟩, ⟨"Ride", 20000, 3000⟩]) 1000
          ⟨⟨999, 888, 77, false⟩, 0⟩).currentStats =
        { totalDistance := 5000, totalTime := 1500, runCount := 1,
          valid := true } ∧
      (fetchWeeklyStats 404 none 1000
            ⟨⟨999, 888, 77, false⟩, 0⟩).currentStats =
        { totalDistance := 999, totalTime := 888, runCount := 77,
          valid := false } := by
  have h := stats_reset_only_after_parse_success 200
    (some [⟨"Run", 5000, 1500⟩, ⟨"Ride", 20000, 3000⟩]) 1000
    ⟨⟨999, 888, 77, false⟩, 0⟩
  have h2 := stats_reset_only_after_parse_success 404 none 1000
    ⟨⟨999, 888, 77, false⟩, 0⟩
  have hride : decide (("Ride" : String) = "Run") = false := by rfl
  have hrun : decide (("Run" : String) = "Run") = true := by rfl
  constructor
  · rw [h.1 [⟨"Run", 5000, 1500⟩, ⟨"Ride", 20000, 3000⟩] rfl rfl]
    simp only [runDistanceSum, runTimeSum, runCountOf, List.filter, hride,
      hrun]
    norm_num
  · rw [h2.2.2 (by decide)]
